import Mathlib

/-!
Shallow embedding of the invoice/payment lifecycle core of the walsatpay
repository (src/src/models/invoice.py, src/src/models/payment.py, and the
status-transition validation of src/src/routes/invoice.py).

Money amounts (SQL `Numeric(10,2)` columns manipulated as Python `Decimal`)
are modelled as exact rationals `ℚ`.  Timestamps (`datetime.utcnow()`) are
modelled as an explicit `now : ℕ` parameter; calendar dates used in the
overdue comparison are modelled as integer day ordinals; the current UTC
year used by invoice numbering is an explicit `ℕ` parameter.  Database
collections (`db.session`, relationship lists, queries) are modelled as
explicit lists carried in the records, and SQL string ordering
(`ORDER BY invoice_number DESC` under the default binary collation) as
Lean's lexicographic `String` order.
-/

namespace Walsatpay

/-- `InvoiceStatus` enum (src/src/models/invoice.py lines 10-15). -/
inductive InvoiceStatus : Type
  | draft
  | sent
  | paid
  | overdue
  | cancelled
deriving DecidableEq, Repr

/-- `PaymentStatus` enum (src/src/models/payment.py lines 6-13).  It is also
the status type of `PaymentRefund` rows. -/
inductive PaymentStatus : Type
  | pending
  | processing
  | completed
  | failed
  | cancelled
  | refunded
  | partiallyRefunded
deriving DecidableEq, Repr

/-- `InvoiceLineItem` (src/src/models/invoice.py lines 234-259): the fields
entering the totals computation. -/
structure InvoiceLineItem : Type where
  description : String
  quantity : ℚ
  unit_price : ℚ
  total_amount : ℚ
deriving DecidableEq, Repr

/-- `InvoiceStatusHistory` rows (src/src/models/invoice.py lines 275-289).
`changed_by` is nullable (system-initiated transitions pass no user). -/
structure InvoiceStatusHistory : Type where
  old_status : InvoiceStatus
  new_status : InvoiceStatus
  changed_at : ℕ
  changed_by : Option ℕ
  notes : Option String
deriving DecidableEq, Repr

/-- `PaymentRefund` rows (src/src/models/payment.py lines 221-246): the
fields written by `Payment.create_refund` plus the completion timestamp. -/
structure PaymentRefund : Type where
  amount : ℚ
  reason : Option String
  status : PaymentStatus
  requested_by : Option ℕ
  completed_at : Option ℕ
deriving DecidableEq, Repr

/-- `PaymentHistory` rows (src/src/models/payment.py lines 267-283). -/
structure PaymentHistory : Type where
  old_status : PaymentStatus
  new_status : PaymentStatus
  failure_reason : Option String
  failure_code : Option String
deriving DecidableEq, Repr

/-- `Payment` (src/src/models/payment.py lines 26-85): the fields the
lifecycle claims touch.  `refunds` is the `refunds` relationship and
`history` the `PaymentHistory` back-reference. -/
structure Payment : Type where
  id : ℕ
  amount : ℚ
  status : PaymentStatus
  processed_at : Option ℕ
  completed_at : Option ℕ
  failed_at : Option ℕ
  failure_reason : Option String
  failure_code : Option String
  refunds : List PaymentRefund
  history : List PaymentHistory
deriving DecidableEq, Repr

/-- `Invoice` (src/src/models/invoice.py lines 17-70): the fields the
lifecycle claims touch.  `issue_year` is the year of `issue_date`;
`due_date` is a day ordinal; `payments` is the `Payment` back-reference
collection (the rows `Payment.query.filter_by(invoice_id=self.id)` sees);
`tax_rate` is `none` when the column is NULL. -/
structure Invoice : Type where
  invoice_number : Option String
  issue_year : ℕ
  due_date : ℤ
  status : InvoiceStatus
  subtotal : ℚ
  tax_rate : Option ℚ
  tax_amount : ℚ
  discount_amount : ℚ
  total_amount : ℚ
  sent_at : Option ℕ
  paid_at : Option ℕ
  line_items : List InvoiceLineItem
  payments : List Payment
  status_history : List InvoiceStatusHistory
deriving DecidableEq, Repr

/-- `InvoiceLineItem.calculate_total` (invoice.py lines 257-259): the line
total is quantity × unit price. -/
def InvoiceLineItem.calculate_total (li : InvoiceLineItem) : InvoiceLineItem :=
  { li with total_amount := li.quantity * li.unit_price }

/-- `Payment.is_refundable` (payment.py lines 95-98): refundable iff the
payment status is COMPLETED. -/
def Payment.is_refundable (p : Payment) : Bool :=
  decide (p.status = PaymentStatus.completed)

/-- `Payment.total_refunded` (payment.py lines 100-103): sum of the amounts
of this payment's refunds whose status is COMPLETED. -/
def Payment.total_refunded (p : Payment) : ℚ :=
  ((p.refunds.filter fun r => decide (r.status = PaymentStatus.completed)).map
    PaymentRefund.amount).sum

/-- `Payment.refundable_amount` (payment.py lines 105-108). -/
def Payment.refundable_amount (p : Payment) : ℚ :=
  p.amount - p.total_refunded

/-- `Invoice.total_paid` (invoice.py lines 94-102): sum of the amounts of
this invoice's payments whose status is COMPLETED. -/
def Invoice.total_paid (inv : Invoice) : ℚ :=
  ((inv.payments.filter fun p => decide (p.status = PaymentStatus.completed)).map
    Payment.amount).sum

/-- `Invoice.outstanding_amount` (invoice.py lines 104-107). -/
def Invoice.outstanding_amount (inv : Invoice) : ℚ :=
  inv.total_amount - inv.total_paid

/-- `Invoice.is_overdue` (invoice.py lines 75-79): status is SENT and the
due date is strictly before the current date `today`. -/
def Invoice.is_overdue (inv : Invoice) (today : ℤ) : Bool :=
  decide (inv.status = InvoiceStatus.sent) && decide (inv.due_date < today)

/-- `Invoice.calculate_totals` (invoice.py lines 131-135).  Python's
`(self.subtotal * self.tax_rate / 100) if self.tax_rate else 0` treats both
a NULL and a zero `tax_rate` as falsy. -/
def Invoice.calculate_totals (inv : Invoice) : Invoice :=
  let sub : ℚ := (inv.line_items.map InvoiceLineItem.total_amount).sum
  let tax : ℚ :=
    match inv.tax_rate with
    | none => 0
    | some r => if r = 0 then 0 else sub * r / 100
  { inv with
    subtotal := sub
    tax_amount := tax
    total_amount := sub + tax - inv.discount_amount }

/-- `Invoice.update_status` (invoice.py lines 137-157): no-op when the new
status equals the current one; otherwise sets the status, stamps
`sent_at`/`paid_at`, and appends one `InvoiceStatusHistory` row recording
the old and new status, the acting user and the notes. -/
def Invoice.update_status (inv : Invoice) (new_status : InvoiceStatus)
    (user_id : Option ℕ) (notes : Option String) (now : ℕ) : Invoice :=
  if inv.status = new_status then inv
  else
    { inv with
      status := new_status
      sent_at := if new_status = InvoiceStatus.sent then some now else inv.sent_at
      paid_at := if new_status = InvoiceStatus.paid then some now else inv.paid_at
      status_history := inv.status_history ++
        [{ old_status := inv.status
           new_status := new_status
           changed_at := now
           changed_by := user_id
           notes := notes }] }

/-- `Invoice.check_overdue_status` (invoice.py lines 181-184): when the
invoice is overdue and still SENT, transition it to OVERDUE with the
defaulted (null) actor and notes. -/
def Invoice.check_overdue_status (inv : Invoice) (today : ℤ) (now : ℕ) : Invoice :=
  if inv.is_overdue today && decide (inv.status = InvoiceStatus.sent) then
    inv.update_status InvoiceStatus.overdue none none now
  else inv

/-- The `valid_transitions` table of the status-update endpoint
(src/src/routes/invoice.py lines 356-362). -/
def valid_transitions (s : InvoiceStatus) : List InvoiceStatus :=
  match s with
  | InvoiceStatus.draft => [InvoiceStatus.sent, InvoiceStatus.cancelled]
  | InvoiceStatus.sent => [InvoiceStatus.paid, InvoiceStatus.overdue, InvoiceStatus.cancelled]
  | InvoiceStatus.overdue => [InvoiceStatus.paid, InvoiceStatus.cancelled]
  | InvoiceStatus.paid => []
  | InvoiceStatus.cancelled => [InvoiceStatus.draft]

/-- The error produced when a requested transition is not in the table
(routes/invoice.py lines 364-367): the response names the current and the
requested status. -/
inductive StatusUpdateError : Type
  | invalidTransition (fromStatus toStatus : InvoiceStatus)
deriving DecidableEq, Repr

/-- The status-update operation as exposed by the API
(`update_invoice_status`, src/src/routes/invoice.py lines 354-370): checks
the requested status against `valid_transitions` for the invoice's current
status, failing with the from/to pair when it is not allowed, and otherwise
delegates to `Invoice.update_status` with the acting user and notes. -/
def update_invoice_status (inv : Invoice) (new_status : InvoiceStatus)
    (user_id : ℕ) (notes : Option String) (now : ℕ) :
    Except StatusUpdateError Invoice :=
  if new_status ∈ valid_transitions inv.status then
    Except.ok (inv.update_status new_status (some user_id) notes now)
  else
    Except.error (StatusUpdateError.invalidTransition inv.status new_status)

/-- The field updates of `Payment.update_status` (payment.py lines 114-141)
on the payment row itself: set the new status, stamp the matching
timestamp, record failure details on FAILED, and append one
`PaymentHistory` row recording the old and new status. -/
def Payment.apply_status (p : Payment) (new_status : PaymentStatus)
    (failure_reason failure_code : Option String) (now : ℕ) : Payment :=
  { p with
    status := new_status
    processed_at :=
      if new_status = PaymentStatus.processing then some now else p.processed_at
    completed_at :=
      if new_status = PaymentStatus.completed then some now else p.completed_at
    failed_at :=
      if new_status = PaymentStatus.failed then some now else p.failed_at
    failure_reason :=
      if new_status = PaymentStatus.failed then failure_reason else p.failure_reason
    failure_code :=
      if new_status = PaymentStatus.failed then failure_code else p.failure_code
    history := p.history ++
      [{ old_status := p.status
         new_status := new_status
         failure_reason := failure_reason
         failure_code := failure_code }] }

/-- The invoice with the fields of its payment `pid` updated by
`Payment.update_status`: the state `self.invoice` sees after the session
flush, with this payment's new status already counted. -/
def Invoice.with_payment_updated (inv : Invoice) (pid : ℕ)
    (new_status : PaymentStatus) (failure_reason failure_code : Option String)
    (now : ℕ) : Invoice :=
  { inv with
    payments := inv.payments.map fun p =>
      if p.id = pid then p.apply_status new_status failure_reason failure_code now
      else p }

/-- `Payment.update_status` (payment.py lines 114-141) seen from the owning
invoice: after the payment's own fields are updated, a transition to
COMPLETED re-evaluates the invoice and, when `outstanding_amount <= 0` with
this payment now counted, transitions the invoice to PAID through
`Invoice.update_status` with the defaulted (null) actor and notes. -/
def payment_update_status (inv : Invoice) (pid : ℕ) (new_status : PaymentStatus)
    (failure_reason failure_code : Option String) (now : ℕ) : Invoice :=
  if new_status = PaymentStatus.completed ∧
      (inv.with_payment_updated pid new_status failure_reason failure_code
        now).outstanding_amount ≤ 0 then
    (inv.with_payment_updated pid new_status failure_reason failure_code
      now).update_status InvoiceStatus.paid none none now
  else inv.with_payment_updated pid new_status failure_reason failure_code now

/-- The error raised by `Payment.create_refund` (payment.py lines 143-149):
`NotRefundable` is `ValueError("Payment is not refundable")` and
`RefundExceedsBalance` is `ValueError("Refund amount exceeds refundable
amount")`. -/
inductive RefundError : Type
  | notRefundable
  | refundExceedsBalance
deriving DecidableEq, Repr

/-- `Payment.create_refund` (payment.py lines 143-160): fails when the
payment is not refundable, then when the amount exceeds the refundable
amount; otherwise adds one new PENDING refund row linked to this payment
with `requested_by` the acting user, and returns it. -/
def Payment.create_refund (p : Payment) (amount : ℚ) (reason : Option String)
    (user_id : Option ℕ) : Except RefundError (Payment × PaymentRefund) :=
  if !p.is_refundable then Except.error RefundError.notRefundable
  else if amount > p.refundable_amount then
    Except.error RefundError.refundExceedsBalance
  else
    let refund : PaymentRefund :=
      { amount := amount
        reason := reason
        status := PaymentStatus.pending
        requested_by := user_id
        completed_at := none }
    Except.ok ({ p with refunds := p.refunds ++ [refund] }, refund)

/-- Modelled from the spec: no operation under src/ ever moves a refund to
COMPLETED (refunds are "marked COMPLETED elsewhere"), and "the source never
actually updates payment.status on refund completion".  Completing the
`i`-th refund therefore only rewrites that refund row's status and
completion timestamp. -/
def Payment.complete_refund (p : Payment) (i : ℕ) (now : ℕ) : Payment :=
  { p with
    refunds := p.refunds.mapIdx fun j r =>
      if j = i then { r with status := PaymentStatus.completed, completed_at := some now }
      else r }

/-- Whether the character list `s` starts with the character list `pre`. -/
def chars_start_with : List Char → List Char → Bool
  | _, [] => true
  | [], _ :: _ => false
  | a :: as, b :: bs => decide (a = b) && chars_start_with as bs

/-- The characters after the last dash of `s` (all of `s` when it has no
dash): Python's `s.split('-')[-1]` (invoice.py line 122). -/
def after_last_dash (s : List Char) : List Char :=
  s.foldl (fun acc c => if c = '-' then [] else acc ++ [c]) []

/-- The numeric value of a list of decimal digits. -/
def digits_to_nat (s : List Char) : ℕ :=
  s.foldl (fun acc c => acc * 10 + (c.toNat - 48)) 0

/-- Python's `int(...)` on a dash-split token (invoice.py line 122):
optional surrounding whitespace, an optional leading plus sign (a minus
cannot occur in a dash-split token), then at least one decimal digit;
anything else raises `ValueError`, caught as the seq-1 fallback. -/
def py_int_nat? (s : List Char) : Option ℕ :=
  let t := ((s.dropWhile Char.isWhitespace).reverse.dropWhile Char.isWhitespace).reverse
  let t :=
    match t with
    | c :: cs => if c = '+' then cs else c :: cs
    | [] => []
  if t ≠ [] ∧ t.all Char.isDigit then some (digits_to_nat t) else none

/-- The SQL filter `Invoice.invoice_number.like('INV-{year}-%')`
(invoice.py lines 115-117): the number starts with `INV-`, the year and a
dash. -/
def invoice_number_matches (year : ℕ) (s : String) : Bool :=
  chars_start_with s.data ("INV-" ++ toString year ++ "-").data

/-- Lexicographic order on character lists by code point: the binary
collation a SQL `ORDER BY` on a text column uses. -/
def char_list_lt : List Char → List Char → Bool
  | _, [] => false
  | [], _ :: _ => true
  | a :: as, b :: bs =>
    if a.val < b.val then true
    else if b.val < a.val then false
    else char_list_lt as bs

/-- Binary (code-point lexicographic) order on strings. -/
def string_lt (a b : String) : Bool :=
  char_list_lt a.data b.data

/-- `ORDER BY invoice_number DESC ... first()` (invoice.py line 117): the
greatest string of the list under binary (lexicographic) string order, or
`none` when the list is empty. -/
def string_max? (l : List String) : Option String :=
  l.foldl
    (fun acc s =>
      match acc with
      | none => some s
      | some m => if string_lt m s then some s else some m)
    none

/-- Python's `f'INV-{year}-{next_seq:04d}'` sequence field (invoice.py
line 129): the decimal digits of `n` left-padded with zeros to at least
four characters. -/
def pad4 (n : ℕ) : String :=
  let s := toString n
  String.mk (List.replicate (4 - s.length) '0') ++ s

/-- The number computed by `Invoice.generate_invoice_number` (invoice.py
lines 109-129) from the current UTC year and the invoice numbers already in
the database: take the last (string-descending) number matching
`INV-{year}-%`, parse its trailing dash-separated token as an integer and
add one; start at 1 when there is no such number or the parse fails. -/
def next_invoice_number (existing : List String) (year : ℕ) : String :=
  let next_seq : ℕ :=
    match string_max? (existing.filter (invoice_number_matches year)) with
    | none => 1
    | some last =>
      match py_int_nat? (after_last_dash last.data) with
      | some n => n + 1
      | none => 1
  "INV-" ++ toString year ++ "-" ++ pad4 next_seq

/-- `Invoice.generate_invoice_number` (invoice.py lines 109-129): assigns
`next_invoice_number` to the invoice.  `year` is `datetime.utcnow().year`,
the current UTC year at the moment of generation — the invoice's own
`issue_date` is not consulted (the creation route even numbers the invoice
before `issue_date` is assigned, routes/invoice.py lines 146-151). -/
def Invoice.generate_invoice_number (inv : Invoice) (existing : List String)
    (year : ℕ) : Invoice :=
  { inv with invoice_number := some (next_invoice_number existing year) }

/-- The sequence-assignment rule exactly as the specification words it: one
more than the highest existing sequence number among the invoices already
numbered `INV-{year}-*`, each parsed from its trailing integer, and 1 when
no prior invoice exists for the year or parsing fails.  Declared only to be
compared against `next_invoice_number`, the rule the source implements. -/
def claimed_next_seq (existing : List String) (year : ℕ) : ℕ :=
  match ((existing.filter (invoice_number_matches year)).filterMap
      fun s => py_int_nat? (after_last_dash s.data)).max? with
  | some m => m + 1
  | none => 1

/-- A COMPLETED payment of 100.00 with no refunds: a concrete probe used
by the witnesses. -/
def basePayment : Payment :=
  { id := 1
    amount := 100
    status := PaymentStatus.completed
    processed_at := none
    completed_at := some 3
    failed_at := none
    failure_reason := none
    failure_code := none
    refunds := []
    history := [] }

/-- A DRAFT invoice with no line items and no payments: a concrete probe
used by the witnesses. -/
def baseInvoice : Invoice :=
  { invoice_number := none
    issue_year := 2025
    due_date := 100
    status := InvoiceStatus.draft
    subtotal := 0
    tax_rate := none
    tax_amount := 0
    discount_amount := 0
    total_amount := 0
    sent_at := none
    paid_at := none
    line_items := []
    payments := []
    status_history := [] }

/-- Scenario A invoice: line items (2 × 50.00) and (1 × 100.00) with their
totals computed by `InvoiceLineItem.calculate_total`, tax rate 10 percent,
discount 5.00. -/
def invoiceA : Invoice :=
  { baseInvoice with
    line_items :=
      [InvoiceLineItem.calculate_total
        { description := "consulting", quantity := 2, unit_price := 50, total_amount := 0 },
       InvoiceLineItem.calculate_total
        { description := "hardware", quantity := 1, unit_price := 100, total_amount := 0 }]
    tax_rate := some 10
    discount_amount := 5 }

/-- Scenario B: a SENT invoice with total 215.00 and a single PENDING
payment of 215.00. -/
def invoiceB : Invoice :=
  { baseInvoice with
    status := InvoiceStatus.sent
    subtotal := 215
    total_amount := 215
    payments :=
      [{ basePayment with
          amount := 215
          status := PaymentStatus.pending
          completed_at := none }] }

/-- An invoice of total 100.00 whose COMPLETED payments (60.00 and 60.00)
overshoot it, while a PENDING payment of 999.00 must not be counted. -/
def invoiceOver : Invoice :=
  { baseInvoice with
    total_amount := 100
    payments :=
      [{ basePayment with amount := 60 },
       { basePayment with id := 2, amount := 60 },
       { basePayment with id := 3, amount := 999, status := PaymentStatus.pending }] }

theorem Invoice.update_status_payments (inv : Invoice) (s : InvoiceStatus)
    (u : Option ℕ) (notes : Option String) (now : ℕ) :
    (inv.update_status s u notes now).payments = inv.payments := by
  by_cases h : inv.status = s <;> simp [Invoice.update_status, h]

theorem Invoice.update_status_status (inv : Invoice) (s : InvoiceStatus)
    (u : Option ℕ) (notes : Option String) (now : ℕ) :
    (inv.update_status s u notes now).status = s := by
  by_cases h : inv.status = s <;> simp [Invoice.update_status, h]

theorem Invoice.update_status_history_of_ne (inv : Invoice) (s : InvoiceStatus)
    (u : Option ℕ) (notes : Option String) (now : ℕ) (h : ¬ inv.status = s) :
    (inv.update_status s u notes now).status_history =
      inv.status_history ++ [⟨inv.status, s, now, u, notes⟩] := by
  simp [Invoice.update_status, h]

theorem Invoice.update_status_self (inv : Invoice) (s : InvoiceStatus)
    (u : Option ℕ) (notes : Option String) (now : ℕ) (h : inv.status = s) :
    inv.update_status s u notes now = inv := by
  simp [Invoice.update_status, h]

/-- C3: after `calculate_totals`, the subtotal is the sum of the line
items' total amounts, the tax amount is subtotal × tax_rate / 100 (zero
when the tax rate is unset or zero) and the total amount is
subtotal + tax_amount − discount_amount, for every invoice; Scenario A
(line items 2 × 50.00 and 1 × 100.00, tax rate 10, discount 5.00) yields
subtotal 200.00, tax 20.00 and total 215.00. -/
theorem calculate_totals_correct :
    (∀ inv : Invoice,
      (inv.calculate_totals).subtotal = (inv.line_items.map InvoiceLineItem.total_amount).sum
      ∧ (inv.calculate_totals).tax_amount =
          (inv.line_items.map InvoiceLineItem.total_amount).sum * (inv.tax_rate.getD 0) / 100
      ∧ (inv.calculate_totals).total_amount =
          (inv.calculate_totals).subtotal + (inv.calculate_totals).tax_amount
            - inv.discount_amount
      ∧ Invoice.tax_amount (Invoice.calculate_totals { inv with tax_rate := none }) = 0
      ∧ Invoice.tax_amount (Invoice.calculate_totals { inv with tax_rate := some 0 }) = 0)
    ∧ invoiceA.calculate_totals.subtotal = 200
    ∧ invoiceA.calculate_totals.tax_amount = 20
    ∧ invoiceA.calculate_totals.total_amount = 215 := by
  constructor
  · intro inv
    refine ⟨rfl, ?_, rfl, ?_, ?_⟩
    · cases h : inv.tax_rate with
      | none => simp [Invoice.calculate_totals, h]
      | some r =>
        by_cases hr : r = 0 <;> simp [Invoice.calculate_totals, h, hr]
    · simp [Invoice.calculate_totals]
    · simp [Invoice.calculate_totals]
  · refine ⟨?_, ?_, ?_⟩ <;>
      · simp [invoiceA, baseInvoice, Invoice.calculate_totals, InvoiceLineItem.calculate_total]
        norm_num

/-- C6: the outstanding amount is the total amount minus the sum of the
amounts of the COMPLETED payments; it equals the total when the payment
list is empty, and completed payments may overshoot it — on a 100.00
invoice with two completed 60.00 payments (and a 999.00 PENDING payment,
which is not counted) it is −20.00 ≤ 0. -/
theorem outstanding_amount_formula :
    (∀ inv : Invoice,
      inv.outstanding_amount =
        inv.total_amount -
          ((inv.payments.filter fun p => decide (p.status = PaymentStatus.completed)).map
            Payment.amount).sum
      ∧ Invoice.outstanding_amount { inv with payments := [] } = inv.total_amount)
    ∧ invoiceOver.outstanding_amount = -20
    ∧ invoiceOver.outstanding_amount ≤ 0 := by
  refine ⟨fun inv => ⟨rfl, ?_⟩, ?_, ?_⟩
  · simp [Invoice.outstanding_amount, Invoice.total_paid]
  · simp [invoiceOver, baseInvoice, basePayment, Invoice.outstanding_amount,
          Invoice.total_paid]
    norm_num
  · simp [invoiceOver, baseInvoice, basePayment, Invoice.outstanding_amount,
          Invoice.total_paid]
    norm_num

/-- C1: the status-update operation checks the requested status against the
transition table DRAFT→{SENT,CANCELLED}, SENT→{PAID,OVERDUE,CANCELLED},
OVERDUE→{PAID,CANCELLED}, PAID→nothing, CANCELLED→{DRAFT}; for a requested
status different from the current one it fails with
InvalidTransition(from, to) exactly when the pair is absent from the table;
in particular DRAFT→PAID fails and PAID→anything fails. -/
theorem update_invoice_status_validates_transitions :
    (valid_transitions InvoiceStatus.draft = [InvoiceStatus.sent, InvoiceStatus.cancelled]
      ∧ valid_transitions InvoiceStatus.sent =
          [InvoiceStatus.paid, InvoiceStatus.overdue, InvoiceStatus.cancelled]
      ∧ valid_transitions InvoiceStatus.overdue =
          [InvoiceStatus.paid, InvoiceStatus.cancelled]
      ∧ valid_transitions InvoiceStatus.paid = []
      ∧ valid_transitions InvoiceStatus.cancelled = [InvoiceStatus.draft])
    ∧ (∀ (inv : Invoice) (s : InvoiceStatus) (u : ℕ) (notes : Option String) (now : ℕ),
        s ≠ inv.status →
          (update_invoice_status inv s u notes now =
              Except.error (StatusUpdateError.invalidTransition inv.status s) ↔
            s ∉ valid_transitions inv.status))
    ∧ (∀ (inv : Invoice) (u : ℕ) (notes : Option String) (now : ℕ),
        inv.status = InvoiceStatus.draft →
          update_invoice_status inv InvoiceStatus.paid u notes now =
            Except.error
              (StatusUpdateError.invalidTransition InvoiceStatus.draft InvoiceStatus.paid))
    ∧ (∀ (inv : Invoice) (s : InvoiceStatus) (u : ℕ) (notes : Option String) (now : ℕ),
        inv.status = InvoiceStatus.paid →
          update_invoice_status inv s u notes now =
            Except.error (StatusUpdateError.invalidTransition InvoiceStatus.paid s)) := by
  refine ⟨⟨rfl, rfl, rfl, rfl, rfl⟩, ?_, ?_, ?_⟩
  · intro inv s u notes now _
    by_cases h : s ∈ valid_transitions inv.status <;> simp [update_invoice_status, h]
  · intro inv u notes now h
    simp [update_invoice_status, h, valid_transitions]
  · intro inv s u notes now h
    simp [update_invoice_status, h, valid_transitions]

theorem update_invoice_status_validates_transitions_witness :
    update_invoice_status baseInvoice InvoiceStatus.paid 1 none 0 =
      Except.error
        (StatusUpdateError.invalidTransition InvoiceStatus.draft InvoiceStatus.paid) :=
  update_invoice_status_validates_transitions.2.2.1 baseInvoice 1 none 0 rfl

/-- C7: updating an invoice to its current status is a no-op that appends
no history record, so a transition to a status S followed by a second
update to S leaves exactly one more history record than before the first
call, not two. -/
theorem update_status_same_status_no_op :
    (∀ (inv : Invoice) (s : InvoiceStatus) (u : Option ℕ) (notes : Option String) (now : ℕ),
        inv.status = s → inv.update_status s u notes now = inv)
    ∧ (∀ (inv : Invoice) (s : InvoiceStatus) (u u₂ : Option ℕ)
          (notes notes₂ : Option String) (now now₂ : ℕ),
        (inv.update_status s u notes now).update_status s u₂ notes₂ now₂ =
          inv.update_status s u notes now)
    ∧ (∀ (inv : Invoice) (s : InvoiceStatus) (u u₂ : Option ℕ)
          (notes notes₂ : Option String) (now now₂ : ℕ),
        inv.status ≠ s →
          ((inv.update_status s u notes now).update_status s
              u₂ notes₂ now₂).status_history.length =
            inv.status_history.length + 1) := by
  refine ⟨fun inv s u notes now h => Invoice.update_status_self inv s u notes now h, ?_, ?_⟩
  · intro inv s u u₂ notes notes₂ now now₂
    exact Invoice.update_status_self _ s u₂ notes₂ now₂
      (Invoice.update_status_status inv s u notes now)
  · intro inv s u u₂ notes notes₂ now now₂ h
    rw [Invoice.update_status_self _ s u₂ notes₂ now₂
          (Invoice.update_status_status inv s u notes now),
        Invoice.update_status_history_of_ne inv s u notes now h]
    simp

theorem update_status_same_status_no_op_witness :
    ((baseInvoice.update_status InvoiceStatus.sent (some 1) none 4).update_status
        InvoiceStatus.sent (some 2) none 9).status_history.length =
      baseInvoice.status_history.length + 1 :=
  update_status_same_status_no_op.2.2 baseInvoice InvoiceStatus.sent
    (some 1) (some 2) none none 4 9 (by decide)

/-- C9: an invoice is overdue iff its status is SENT and its due date is
strictly before the current date; `check_overdue_status` transitions it to
OVERDUE with a null actor exactly when it is overdue, appending one history
record, and does nothing in every other situation. -/
theorem check_overdue_status_behaviour :
    (∀ (inv : Invoice) (today : ℤ),
        inv.is_overdue today = true ↔
          inv.status = InvoiceStatus.sent ∧ inv.due_date < today)
    ∧ (∀ (inv : Invoice) (today : ℤ) (now : ℕ),
        inv.is_overdue today = true →
          (inv.check_overdue_status today now).status = InvoiceStatus.overdue
          ∧ (inv.check_overdue_status today now).status_history =
              inv.status_history ++
                [{ old_status := InvoiceStatus.sent
                   new_status := InvoiceStatus.overdue
                   changed_at := now
                   changed_by := none
                   notes := none }])
    ∧ (∀ (inv : Invoice) (today : ℤ) (now : ℕ),
        inv.is_overdue today = false → inv.check_overdue_status today now = inv) := by
  refine ⟨?_, ?_, ?_⟩
  · intro inv today
    simp [Invoice.is_overdue]
  · intro inv today now h
    have hs : inv.status = InvoiceStatus.sent ∧ inv.due_date < today := by
      simpa [Invoice.is_overdue] using h
    have hred : inv.check_overdue_status today now =
        inv.update_status InvoiceStatus.overdue none none now := by
      simp [Invoice.check_overdue_status, h, hs.1]
    have hne : ¬ inv.status = InvoiceStatus.overdue := by
      rw [hs.1]
      simp
    constructor
    · rw [hred]
      exact Invoice.update_status_status inv InvoiceStatus.overdue none none now
    · rw [hred, Invoice.update_status_history_of_ne inv InvoiceStatus.overdue none none now hne,
          hs.1]
  · intro inv today now h
    simp [Invoice.check_overdue_status, h]

theorem check_overdue_status_behaviour_witness :
    (Invoice.check_overdue_status
        { baseInvoice with status := InvoiceStatus.sent, due_date := 5 } 6 9).status =
      InvoiceStatus.overdue :=
  (check_overdue_status_behaviour.2.1
    { baseInvoice with status := InvoiceStatus.sent, due_date := 5 } 6 9 (by decide)).1

theorem Payment.create_refund_ok (p : Payment) (amount : ℚ) (reason : Option String)
    (uid : Option ℕ) (h1 : p.status = PaymentStatus.completed)
    (h2 : ¬ amount > p.refundable_amount) :
    p.create_refund amount reason uid =
      Except.ok
        ({ p with refunds := p.refunds ++
            [{ amount := amount
               reason := reason
               status := PaymentStatus.pending
               requested_by := uid
               completed_at := none }] },
         { amount := amount
           reason := reason
           status := PaymentStatus.pending
           requested_by := uid
           completed_at := none }) := by
  simp [Payment.create_refund, Payment.is_refundable, h1, h2]

theorem Payment.create_refund_ok_elim (p : Payment) (amount : ℚ) (reason : Option String)
    (uid : Option ℕ) (q : Payment) (r : PaymentRefund)
    (h : p.create_refund amount reason uid = Except.ok (q, r)) :
    p.status = PaymentStatus.completed ∧ ¬ amount > p.refundable_amount ∧
      r = { amount := amount
            reason := reason
            status := PaymentStatus.pending
            requested_by := uid
            completed_at := none } ∧
      q = { p with refunds := p.refunds ++ [r] } := by
  by_cases h1 : p.status = PaymentStatus.completed
  · by_cases h2 : amount > p.refundable_amount
    · rw [Payment.create_refund] at h
      simp [Payment.is_refundable, h1, h2] at h
    · rw [Payment.create_refund_ok p amount reason uid h1 h2] at h
      injection h with h₀
      injection h₀ with hq hr
      subst hq
      subst hr
      exact ⟨h1, h2, rfl, rfl⟩
  · rw [Payment.create_refund] at h
    simp [Payment.is_refundable, h1] at h

theorem Payment.total_refunded_append_pending (p : Payment) (r : PaymentRefund)
    (h : ¬ r.status = PaymentStatus.completed) :
    Payment.total_refunded { p with refunds := p.refunds ++ [r] } = p.total_refunded := by
  simp [Payment.total_refunded, List.filter_append, h]

/-- C4: `create_refund` fails with NotRefundable exactly when the payment
is not COMPLETED; on a COMPLETED payment it fails with RefundExceedsBalance
exactly when the amount strictly exceeds the refundable amount (computed
at call time from the currently COMPLETED refunds), succeeds at
amount = refundable_amount, and fails at refundable_amount + 0.01. -/
theorem create_refund_error_conditions :
    (∀ (p : Payment) (amount : ℚ) (reason : Option String) (uid : Option ℕ),
        (p.create_refund amount reason uid = Except.error RefundError.notRefundable ↔
          ¬ p.status = PaymentStatus.completed)
        ∧ (p.status = PaymentStatus.completed →
            (p.create_refund amount reason uid =
                Except.error RefundError.refundExceedsBalance ↔
              amount > p.refundable_amount))
        ∧ (p.status = PaymentStatus.completed → amount = p.refundable_amount →
            ∃ q r, p.create_refund amount reason uid = Except.ok (q, r)))
    ∧ (∀ (p : Payment) (reason : Option String) (uid : Option ℕ),
        p.status = PaymentStatus.completed →
          p.create_refund (p.refundable_amount + 1 / 100) reason uid =
            Except.error RefundError.refundExceedsBalance) := by
  constructor
  · intro p amount reason uid
    refine ⟨?_, ?_, ?_⟩
    · by_cases h1 : p.status = PaymentStatus.completed
      · by_cases h2 : amount > p.refundable_amount <;>
          simp [Payment.create_refund, Payment.is_refundable, h1, h2]
      · simp [Payment.create_refund, Payment.is_refundable, h1]
    · intro h1
      by_cases h2 : amount > p.refundable_amount <;>
        simp [Payment.create_refund, Payment.is_refundable, h1, h2]
    · intro h1 h2
      refine ⟨_, _, Payment.create_refund_ok p amount reason uid h1 ?_⟩
      rw [h2]
      exact lt_irrefl _
  · intro p reason uid h1
    have h2 : p.refundable_amount + 1 / 100 > p.refundable_amount := by
      have : (0 : ℚ) < 1 / 100 := by norm_num
      linarith
    simp [Payment.create_refund, Payment.is_refundable, h1, h2]

theorem create_refund_error_conditions_witness :
    basePayment.create_refund (Payment.refundable_amount basePayment + 1 / 100) none none =
      Except.error RefundError.refundExceedsBalance :=
  create_refund_error_conditions.2 basePayment none none rfl

/-- C8: a successful `create_refund` adds exactly one new PENDING refund
linked to the payment with requested_by the acting user, and changes
nothing else on the payment: its status stays COMPLETED and is never set
to REFUNDED or PARTIALLY_REFUNDED, neither by create_refund nor by a
refund reaching COMPLETED (completing a refund rewrites only the refund
row; the source has no code reacting to it). -/
theorem create_refund_frame :
    (∀ (p : Payment) (amount : ℚ) (reason : Option String) (uid : Option ℕ)
        (q : Payment) (r : PaymentRefund),
        p.create_refund amount reason uid = Except.ok (q, r) →
          r.status = PaymentStatus.pending ∧ r.requested_by = uid ∧ r.amount = amount
          ∧ r.reason = reason
          ∧ q.refunds = p.refunds ++ [r]
          ∧ q.status = p.status ∧ q.status = PaymentStatus.completed
          ∧ q.id = p.id ∧ q.amount = p.amount ∧ q.completed_at = p.completed_at
          ∧ q.history = p.history
          ∧ ¬ q.status = PaymentStatus.refunded
          ∧ ¬ q.status = PaymentStatus.partiallyRefunded)
    ∧ (∀ (p : Payment) (i : ℕ) (now : ℕ),
        (p.complete_refund i now).status = p.status
        ∧ (p.complete_refund i now).amount = p.amount
        ∧ (p.complete_refund i now).history = p.history) := by
  constructor
  · intro p amount reason uid q r h
    obtain ⟨h1, _, hr, hq⟩ := Payment.create_refund_ok_elim p amount reason uid q r h
    subst hr
    subst hq
    simp [h1]
  · intro p i now
    exact ⟨rfl, rfl, rfl⟩

theorem create_refund_frame_witness :
    PaymentRefund.status
        { amount := 40
          reason := none
          status := PaymentStatus.pending
          requested_by := some 9
          completed_at := none } = PaymentStatus.pending :=
  (create_refund_frame.1 basePayment 40 none (some 9)
      { basePayment with refunds :=
          [{ amount := 40
             reason := none
             status := PaymentStatus.pending
             requested_by := some 9
             completed_at := none }] }
      { amount := 40
        reason := none
        status := PaymentStatus.pending
        requested_by := some 9
        completed_at := none }
      (Payment.create_refund_ok basePayment 40 none (some 9) rfl
        (by norm_num [Payment.refundable_amount, Payment.total_refunded, basePayment]))).1

/-- C10: a successful `create_refund` leaves `refundable_amount` unchanged
because the new refund is PENDING and only COMPLETED refunds are
subtracted; hence on a COMPLETED payment with refundable amount A > 0 two
consecutive `create_refund`(A) calls both succeed, and starting from no
refunds the refund amounts then sum to 2·A, exceeding the payment
amount. -/
theorem pending_refund_allows_double_refund :
    ∀ (p : Payment) (reason : Option String) (uid : Option ℕ),
      p.status = PaymentStatus.completed →
      0 < p.refundable_amount →
      (∃ q r, p.create_refund p.refundable_amount reason uid = Except.ok (q, r))
      ∧ ∀ (q : Payment) (r : PaymentRefund),
          p.create_refund p.refundable_amount reason uid = Except.ok (q, r) →
            q.refundable_amount = p.refundable_amount
            ∧ (∃ q₂ r₂, q.create_refund p.refundable_amount reason uid = Except.ok (q₂, r₂))
            ∧ (p.refunds = [] →
                ∀ (q₂ : Payment) (r₂ : PaymentRefund),
                  q.create_refund p.refundable_amount reason uid = Except.ok (q₂, r₂) →
                    (q₂.refunds.map PaymentRefund.amount).sum = 2 * p.refundable_amount
                    ∧ p.amount < (q₂.refunds.map PaymentRefund.amount).sum) := by
  intro p reason uid h1 hA
  refine ⟨⟨_, _, Payment.create_refund_ok p p.refundable_amount reason uid h1 (lt_irrefl _)⟩, ?_⟩
  intro q r h
  obtain ⟨_, _, hr, hq⟩ := Payment.create_refund_ok_elim p _ reason uid q r h
  have hqstatus : q.status = PaymentStatus.completed := by rw [hq]; exact h1
  have hqref : q.refundable_amount = p.refundable_amount := by
    rw [hq, Payment.refundable_amount,
        Payment.total_refunded_append_pending p r (by rw [hr]; simp)]
    rfl
  refine ⟨hqref, ⟨_, _, Payment.create_refund_ok q p.refundable_amount reason uid hqstatus
    (by rw [hqref]; exact lt_irrefl _)⟩, ?_⟩
  intro hnil q₂ r₂ h₂
  obtain ⟨_, _, hr₂, hq₂⟩ := Payment.create_refund_ok_elim q _ reason uid q₂ r₂ h₂
  have hAamount : p.refundable_amount = p.amount := by
    rw [Payment.refundable_amount, Payment.total_refunded, hnil]
    simp
  have hsum : (q₂.refunds.map PaymentRefund.amount).sum = 2 * p.refundable_amount := by
    rw [hq₂, hq, hnil, hr, hr₂]
    simp [hr]
    ring
  refine ⟨hsum, ?_⟩
  rw [hsum, ← hAamount]
  linarith

theorem pending_refund_allows_double_refund_witness :
    ∃ q r, basePayment.create_refund basePayment.refundable_amount none none =
      Except.ok (q, r) :=
  (pending_refund_allows_double_refund basePayment none none rfl
    (by norm_num [Payment.refundable_amount, Payment.total_refunded, basePayment])).1

theorem payment_update_status_payments (inv : Invoice) (pid : ℕ) (s : PaymentStatus)
    (fr fc : Option String) (now : ℕ) :
    (payment_update_status inv pid s fr fc now).payments =
      (inv.with_payment_updated pid s fr fc now).payments := by
  rw [payment_update_status]
  by_cases hc : s = PaymentStatus.completed ∧
      (inv.with_payment_updated pid s fr fc now).outstanding_amount ≤ 0
  · rw [if_pos hc]
    exact Invoice.update_status_payments _ InvoiceStatus.paid none none now
  · rw [if_neg hc]

/-- C2: `Payment.update_status` to COMPLETED stamps `completed_at` = now on
the payment and, when the owning invoice's outstanding amount with this
payment now counted is ≤ 0, transitions the invoice to PAID through
`Invoice.update_status` with a null actor (and otherwise leaves the
invoice's own fields untouched).  Scenario B: completing the 215.00
payment of a SENT invoice with total 215.00 drives the outstanding amount
to 0.00 and the status to PAID. -/
theorem payment_completion_cascades_to_invoice :
    (∀ (inv : Invoice) (pid : ℕ) (now : ℕ) (q : Payment),
        q ∈ (payment_update_status inv pid PaymentStatus.completed none none now).payments →
        q.id = pid →
        q.status = PaymentStatus.completed ∧ q.completed_at = some now)
    ∧ (∀ (inv : Invoice) (pid : ℕ) (now : ℕ),
        (inv.with_payment_updated pid PaymentStatus.completed none none
            now).outstanding_amount ≤ 0 →
          (payment_update_status inv pid PaymentStatus.completed none none now).status =
            InvoiceStatus.paid
          ∧ (¬ inv.status = InvoiceStatus.paid →
              (payment_update_status inv pid PaymentStatus.completed none none
                  now).status_history =
                inv.status_history ++
                  [{ old_status := inv.status
                     new_status := InvoiceStatus.paid
                     changed_at := now
                     changed_by := none
                     notes := none }]))
    ∧ (∀ (inv : Invoice) (pid : ℕ) (now : ℕ),
        ¬ (inv.with_payment_updated pid PaymentStatus.completed none none
            now).outstanding_amount ≤ 0 →
          payment_update_status inv pid PaymentStatus.completed none none now =
            inv.with_payment_updated pid PaymentStatus.completed none none now)
    ∧ (payment_update_status invoiceB 1 PaymentStatus.completed none none
        7).outstanding_amount = 0
    ∧ invoiceB.status = InvoiceStatus.sent
    ∧ (payment_update_status invoiceB 1 PaymentStatus.completed none none 7).status =
        InvoiceStatus.paid := by
  refine ⟨?_, ?_, ?_, ?_, rfl, ?_⟩
  · intro inv pid now q hq hid
    rw [payment_update_status_payments, Invoice.with_payment_updated] at hq
    simp only [List.mem_map] at hq
    obtain ⟨p, _, hqe⟩ := hq
    by_cases hpid : p.id = pid
    · rw [if_pos hpid] at hqe
      subst hqe
      exact ⟨rfl, rfl⟩
    · rw [if_neg hpid] at hqe
      subst hqe
      exact absurd hid hpid
  · intro inv pid now hout
    have hc : PaymentStatus.completed = PaymentStatus.completed ∧
        (inv.with_payment_updated pid PaymentStatus.completed none none
          now).outstanding_amount ≤ 0 := ⟨rfl, hout⟩
    constructor
    · rw [payment_update_status, if_pos hc]
      exact Invoice.update_status_status _ InvoiceStatus.paid none none now
    · intro hne
      have hne1 : ¬ (inv.with_payment_updated pid PaymentStatus.completed none none
          now).status = InvoiceStatus.paid := hne
      rw [payment_update_status, if_pos hc,
          Invoice.update_status_history_of_ne _ InvoiceStatus.paid none none now hne1]
      rfl
  · intro inv pid now hout
    rw [payment_update_status, if_neg]
    intro hc
    exact hout hc.2
  · simp [payment_update_status, Invoice.with_payment_updated, Payment.apply_status,
          Invoice.update_status, Invoice.outstanding_amount, Invoice.total_paid,
          invoiceB, basePayment, baseInvoice]
  · simp [payment_update_status, Invoice.with_payment_updated, Payment.apply_status,
          Invoice.update_status, Invoice.outstanding_amount, Invoice.total_paid,
          invoiceB, basePayment, baseInvoice]

theorem payment_completion_cascades_to_invoice_witness :
    (payment_update_status invoiceB 1 PaymentStatus.completed none none 7).status =
      InvoiceStatus.paid :=
  (payment_completion_cascades_to_invoice.2.1 invoiceB 1 7 (by
      simp [Invoice.with_payment_updated, Payment.apply_status, Invoice.outstanding_amount,
            Invoice.total_paid, invoiceB, basePayment, baseInvoice])).1

/-- C5 counterexample: with existing numbers INV-2025-10000 and
INV-2025-9999, the highest existing sequence number is 10000 and the claim
predicts INV-2025-10001, but the source scans the string-greatest number
INV-2025-9999 and produces INV-2025-10000 — a duplicate of an existing
number.  Separately, the year used is the current UTC year at generation
time, not the invoice's issue year: an invoice with issue year 2024
numbered during 2025 gets INV-2025-0001. -/
theorem generate_invoice_number_counterexample :
    next_invoice_number ["INV-2025-10000", "INV-2025-9999"] 2025 = "INV-2025-10000"
    ∧ claimed_next_seq ["INV-2025-10000", "INV-2025-9999"] 2025 = 10001
    ∧ next_invoice_number ["INV-2025-10000", "INV-2025-9999"] 2025 ≠
        "INV-" ++ toString 2025 ++ "-" ++
          pad4 (claimed_next_seq ["INV-2025-10000", "INV-2025-9999"] 2025)
    ∧ next_invoice_number ["INV-2025-10000", "INV-2025-9999"] 2025 ∈
        ["INV-2025-10000", "INV-2025-9999"]
    ∧ (Invoice.generate_invoice_number { baseInvoice with issue_year := 2024 }
        [] 2025).invoice_number = some "INV-2025-0001"
    ∧ Invoice.issue_year { baseInvoice with issue_year := 2024 } = 2024 := by
  exact ⟨by decide, by decide, by decide, by decide, by decide, rfl⟩

/-- C5 (amended): `generate_invoice_number` assigns INV-{year}-{seq:04d}
where year is the current UTC year at generation time and seq is one more
than the trailing integer parsed from the lexicographically greatest
existing number matching INV-{year}-, or 1 when no such number exists or
that parse fails; the first invoice of 2025 gets INV-2025-0001, the next
INV-2025-0002, and the first invoice of 2026 gets INV-2026-0001. -/
theorem generate_invoice_number_amended :
    (∀ (inv : Invoice) (existing : List String) (year : ℕ),
        (inv.generate_invoice_number existing year).invoice_number =
          some (next_invoice_number existing year)
        ∧ Invoice.issue_year (inv.generate_invoice_number existing year) = inv.issue_year)
    ∧ (∀ (existing : List String) (year : ℕ),
        next_invoice_number existing year =
          "INV-" ++ toString year ++ "-" ++
            pad4 (match string_max? (existing.filter (invoice_number_matches year)) with
                  | none => 1
                  | some last =>
                    match py_int_nat? (after_last_dash last.data) with
                    | some n => n + 1
                    | none => 1))
    ∧ next_invoice_number [] 2025 = "INV-2025-0001"
    ∧ next_invoice_number ["INV-2025-0001"] 2025 = "INV-2025-0002"
    ∧ next_invoice_number ["INV-2025-0001", "INV-2025-0002"] 2026 = "INV-2026-0001"
    ∧ next_invoice_number ["INV-2025-10000", "INV-2025-9999"] 2025 = "INV-2025-10000" :=
  ⟨fun inv existing year => ⟨rfl, rfl⟩, fun existing year => rfl,
   by decide, by decide, by decide, by decide⟩

end Walsatpay
